import Mathlib

/-!
Verification development for the valuecell conversation-service and
planning/task-execution subsystem. Definitions are a shallow embedding of
the Python sources under valuecell/core; collaborators that live outside
the provided sources (the conversation manager, the LLM planning oracle,
the task executor) are modelled from the specification, as marked on each
definition.
-/

namespace ValueCell

/-- Conversation lifecycle status. Modelled from the spec: the conversation
state collaborator of section 6 together with the status-changing service
methods; the concrete enumeration lives in a module outside the given
sources, so only the distinctions the service layer uses are modelled. -/
inductive ConversationStatus where
  | created
  | active
  | requiresUserInput
  | archived
deriving DecidableEq, Repr

/-- A conversation record with the fields the service layer manipulates. -/
structure Conversation where
  user_id : String
  conversation_id : String
  title : Option String
  status : ConversationStatus
deriving DecidableEq, Repr

/-- Role of a conversation item author, kept abstract as a string tag. -/
abbrev Role := String

/-- Item event tag, kept abstract as a string tag. -/
abbrev ItemEventTag := String

/-- Response payload attached to an item; the source defaults it to None. -/
abbrev ResponsePayload := Option String

/-- A persisted conversation item carrying exactly the item-event fields of
the store contract used by ConversationService.add_item. -/
structure ConversationItem where
  role : Role
  event : ItemEventTag
  conversation_id : String
  thread_id : Option String
  task_id : Option String
  payload : ResponsePayload
  item_id : Option String
  agent_name : Option String
deriving DecidableEq, Repr

/-- State of the external ConversationManager collaborator, with call
traces. Modelled from the spec: the conversation-state contract
(get, create, update) and the conversation/item store contract
(append_item) of section 6. -/
structure ManagerState where
  conversations : List Conversation
  items : List ConversationItem
  createCalls : List (String × Option String × String)
  updateCalls : List Conversation
deriving DecidableEq, Repr

/-- Modelled from the spec: get(conversation_id) returns the stored
conversation or None. -/
def getConversation (st : ManagerState) (cid : String) : Option Conversation :=
  st.conversations.find? (fun c => c.conversation_id == cid)

/-- The conversation a create call constructs from its arguments. -/
def freshConversation (uid : String) (title : Option String) (cid : String) : Conversation :=
  ⟨uid, cid, title, ConversationStatus.created⟩

/-- Modelled from the spec: create(user_id, title?, conversation_id?)
returns a new conversation and records it; the call is traced. -/
def createConversation (st : ManagerState) (uid : String) (title : Option String)
    (cid : String) : Conversation × ManagerState :=
  (freshConversation uid title cid,
   { st with
      conversations := st.conversations ++ [freshConversation uid title cid],
      createCalls := st.createCalls ++ [(uid, title, cid)] })

/-- Modelled from the spec: update(conversation) persists the conversation
under its id; the call is traced. -/
def updateConversation (st : ManagerState) (c : Conversation) : ManagerState :=
  { st with
      conversations :=
        st.conversations.map (fun o => if o.conversation_id == c.conversation_id then c else o),
      updateCalls := st.updateCalls ++ [c] }

/-- Modelled from the spec: append_item builds an item from exactly the
given fields, stores it, and returns it. -/
def managerAddItem (st : ManagerState) (role : Role) (event : ItemEventTag)
    (conversation_id : String) (thread_id : Option String) (task_id : Option String)
    (payload : ResponsePayload) (item_id : Option String) (agent_name : Option String) :
    Option ConversationItem × ManagerState :=
  (some ⟨role, event, conversation_id, thread_id, task_id, payload, item_id, agent_name⟩,
   { st with items :=
      st.items ++ [⟨role, event, conversation_id, thread_id, task_id, payload, item_id, agent_name⟩] })

/-- Conversation.activate, as invoked by the service layer. -/
def Conversation.activate (c : Conversation) : Conversation :=
  { c with status := ConversationStatus.active }

/-- Conversation.require_user_input, as invoked by the service layer. -/
def Conversation.requireUserInput (c : Conversation) : Conversation :=
  { c with status := ConversationStatus.requiresUserInput }

/-- Conversation.set_status, as invoked by the service layer. -/
def Conversation.setStatus (c : Conversation) (s : ConversationStatus) : Conversation :=
  { c with status := s }

namespace ConversationService

/-- ConversationService.ensure_conversation from service.py: return the
conversation, creating it if it does not exist, paired with a created
flag. -/
def ensureConversation (st : ManagerState) (uid cid : String) (title : Option String) :
    (Conversation × Bool) × ManagerState :=
  match getConversation st cid with
  | some conversation => ((conversation, false), st)
  | none =>
    let r := createConversation st uid title cid
    ((r.1, true), r.2)

/-- ConversationService.activate from service.py. -/
def activate (st : ManagerState) (cid : String) : Bool × ManagerState :=
  match getConversation st cid with
  | none => (false, st)
  | some c => (true, updateConversation st (Conversation.activate c))

/-- ConversationService.require_user_input from service.py. -/
def requireUserInput (st : ManagerState) (cid : String) : Bool × ManagerState :=
  match getConversation st cid with
  | none => (false, st)
  | some c => (true, updateConversation st (Conversation.requireUserInput c))

/-- ConversationService.set_status from service.py. -/
def setStatus (st : ManagerState) (cid : String) (s : ConversationStatus) :
    Bool × ManagerState :=
  match getConversation st cid with
  | none => (false, st)
  | some c => (true, updateConversation st (Conversation.setStatus c s))

/-- ConversationService.add_item from service.py: persist a conversation
item via the underlying manager, forwarding every argument. -/
def addItem (st : ManagerState) (role : Role) (event : ItemEventTag)
    (conversation_id : String) (thread_id : Option String) (task_id : Option String)
    (payload : ResponsePayload) (item_id : Option String) (agent_name : Option String) :
    Option ConversationItem × ManagerState :=
  managerAddItem st role event conversation_id thread_id task_id payload item_id agent_name

end ConversationService

namespace Planner

/-- Task cadence pattern, once or recurring. -/
inductive Pattern where
  | once
  | recurring
deriving DecidableEq, Repr

/-- Schedule configuration carried by a planned task: an interval in
minutes or a daily wall-clock time as an hour-minute pair. -/
structure ScheduleConfig where
  interval_minutes : Option Nat
  daily_time : Option (Nat × Nat)
deriving DecidableEq, Repr

/-- A task candidate produced by the planner. -/
structure PlannedTask where
  query : String
  agent_name : String
  pattern : Pattern
  schedule_config : Option ScheduleConfig
deriving DecidableEq, Repr

/-- The structured outcome of planning a request. -/
structure PlanningDecision where
  tasks : List PlannedTask
  adequate : Bool
  reason : String
deriving DecidableEq, Repr

/-- An enabled agent as reported by the agent directory: name, description
and declared skills. -/
structure AgentInfo where
  name : String
  description : String
  skills : List String
deriving DecidableEq, Repr

/-- Modelled from the spec: the explicit confirmation-state flag carried in
conversation context (design note of section 9) that records whether the
previous turn asked for recurring confirmation. -/
structure PlanContext where
  awaitingRecurringConfirmation : Bool
deriving DecidableEq, Repr

/-- Modelled from the spec: the semantic judgments of the LLM planning
oracle guided by PLANNER_INSTRUCTION. The oracle decides whether a query
is unusable, whether it suggests recurring monitoring, whether it is an
explicit affirmative confirmation, which interval or daily time its
schedule language denotes, and which enabled agent best matches it. -/
structure PlannerOracle where
  isUnusable : String → Bool
  suggestsRecurring : String → Bool
  isAffirmativeConfirmation : String → Bool
  intervalMinutesOf : String → Option Nat
  dailyTimeOf : String → Option (Nat × Nat)
  skillMatch : List AgentInfo → String → Option String
  confirmationQuestion : String → String
  rejectionReason : String → String

/-- Agent selection of PLANNER_INSTRUCTION rule 1: a provided target agent
is used as-is; otherwise the clearest skill match among the enabled
agents; otherwise the ResearchAgent fallback. -/
def selectAgent (o : PlannerOracle) (target : Option String) (enabled : List AgentInfo)
    (q : String) : String :=
  match target with
  | some name => name
  | none =>
    match o.skillMatch enabled q with
    | some name => name
    | none => "ResearchAgent"

/-- Schedule extraction of PLANNER_INSTRUCTION rule 5: an explicit interval
populates interval_minutes, an explicit daily time populates daily_time,
only one of the two is ever set, and no schedule language leaves the
configuration absent. -/
def extractSchedule (o : PlannerOracle) (q : String) : Option ScheduleConfig :=
  match o.intervalMinutesOf q with
  | some n => some ⟨some n, none⟩
  | none =>
    match o.dailyTimeOf q with
    | some hm => some ⟨none, some hm⟩
    | none => none

/-- Modelled from the spec: the ExecutionPlanner decision procedure of
section 4.1 enforcing PLANNER_INSTRUCTION. Unusable requests are refused;
a confirmed recurring intent yields a single recurring task with the
query unchanged; an unconfirmed recurring intent yields a confirmation
question and no tasks; every other request passes through as a single
once task with the query unchanged. The returned context records whether
this turn asked for recurring confirmation. -/
def plan (o : PlannerOracle) (ctx : PlanContext) (target : Option String)
    (enabled : List AgentInfo) (q : String) : PlanningDecision × PlanContext :=
  if o.isUnusable q then
    (⟨[], false, o.rejectionReason q⟩, ⟨false⟩)
  else if ctx.awaitingRecurringConfirmation && o.isAffirmativeConfirmation q then
    (⟨[⟨q, selectAgent o target enabled q, Pattern.recurring, extractSchedule o q⟩], true,
      "User confirmed recurring intent; created a single recurring task."⟩,
     ⟨false⟩)
  else if o.suggestsRecurring q && !ctx.awaitingRecurringConfirmation then
    (⟨[], false, o.confirmationQuestion q⟩, ⟨true⟩)
  else
    (⟨[⟨q, selectAgent o target enabled q, Pattern.once, none⟩], true,
      "Pass-through task forwarded unchanged."⟩, ⟨false⟩)

/-- A concrete oracle used to evaluate the planner on sample inputs. -/
def sampleOracle : PlannerOracle where
  isUnusable := fun q => q == "do something impossible"
  suggestsRecurring := fun q => q == "Monitor Apple quarterly earnings"
  isAffirmativeConfirmation := fun q =>
    q == "Yes, set up regular updates" || q == "Check Tesla stock price every hour"
  intervalMinutesOf := fun q =>
    if q == "Check Tesla stock price every hour" then some 60 else none
  dailyTimeOf := fun q =>
    if q == "Analyze market trends every day at 9 AM" then some (9, 0) else none
  skillMatch := fun _ _ => none
  confirmationQuestion := fun _ =>
    "Do you want regular updates on this, or a one-time analysis?"
  rejectionReason := fun _ => "The request is unusable."

/-- A sample enabled-agent directory listing. -/
def sampleAgents : List AgentInfo :=
  [⟨"ResearchAgent", "General research over market data", ["research"]⟩]

end Planner

namespace Exec

/-- Modelled from the spec: the observable dispatch state of the
TaskExecutor, as a transition system. pending holds task ids whose firing
has been requested and not yet started; inflight holds task ids with a
dispatch currently in flight. -/
structure ExecutorState where
  pending : List String
  inflight : List String
deriving DecidableEq, Repr

/-- Modelled from the spec: one interleaving step of the executor. A
firing request enqueues its task id; a dispatch may start only when no
dispatch for the same task id is in flight (per-task serialization of
sections 4.2 and 5); finishing a dispatch removes it from flight. -/
inductive ExecStep : ExecutorState → ExecutorState → Prop where
  | fire (s : ExecutorState) (tid : String) :
      ExecStep s ⟨s.pending ++ [tid], s.inflight⟩
  | start (s : ExecutorState) (tid : String)
      (hp : tid ∈ s.pending) (hi : tid ∉ s.inflight) :
      ExecStep s ⟨s.pending.erase tid, tid :: s.inflight⟩
  | finish (s : ExecutorState) (tid : String) (hi : tid ∈ s.inflight) :
      ExecStep s ⟨s.pending, s.inflight.erase tid⟩

/-- Executor states reachable from the idle initial state. -/
inductive ExecReachable : ExecutorState → Prop where
  | init : ExecReachable ⟨[], []⟩
  | step {s t : ExecutorState} : ExecReachable s → ExecStep s t → ExecReachable t

end Exec

namespace Wiring

/-- A remote-connections instance, identified by allocation id. -/
structure RemoteConnections where
  connId : Nat
deriving DecidableEq, Repr

/-- A ConversationManager instance, identified by allocation id so that
instance sharing is observable. -/
structure ConversationManagerRef where
  mgrId : Nat
deriving DecidableEq, Repr

/-- A ConversationService wrapping one manager instance. -/
structure ConversationServiceW where
  manager : ConversationManagerRef
deriving DecidableEq, Repr

/-- A ResponseService wrapping one conversation service. -/
structure ResponseServiceW where
  conversation_service : ConversationServiceW
deriving DecidableEq, Repr

/-- A TaskService instance. -/
structure TaskServiceW where
  taskSvcId : Nat
deriving DecidableEq, Repr

/-- A PlanService holding the connections it was built with. -/
structure PlanServiceW where
  connections : RemoteConnections
deriving DecidableEq, Repr

/-- A SuperAgentService instance. -/
structure SuperAgentServiceW where
  superId : Nat
deriving DecidableEq, Repr

/-- A TaskExecutor with the constructor dependencies compose passes it. -/
structure TaskExecutorW where
  agent_connections : RemoteConnections
  task_service : TaskServiceW
  response_service : ResponseServiceW
  conversation_service : ConversationServiceW
deriving DecidableEq, Repr

/-- AgentServiceBundle from services.py: the aggregate of services handed
to the orchestrator. -/
structure AgentServiceBundle where
  agent_connections : RemoteConnections
  conversation_service : ConversationServiceW
  response_service : ResponseServiceW
  task_service : TaskServiceW
  plan_service : PlanServiceW
  super_agent_service : SuperAgentServiceW
  task_executor : TaskExecutorW
deriving DecidableEq, Repr

/-- The conversation_manager property of AgentServiceBundle. -/
def AgentServiceBundle.conversation_manager (b : AgentServiceBundle) : ConversationManagerRef :=
  b.conversation_service.manager

/-- AgentServiceBundle.compose from services.py. Fresh construction of
RemoteConnections, the default SQLite-backed ConversationManager,
TaskService and SuperAgentService is modelled by the fresh allocation ids
passed in; a fresh id differs from the id of every previously existing
instance. Optional arguments mirror the keyword-only overrides. -/
def compose (freshConn freshMgr freshTask freshSuper : Nat)
    (conversation_service : Option ConversationServiceW)
    (response_service : Option ResponseServiceW)
    (plan_service : Option PlanServiceW)
    (super_agent_service : Option SuperAgentServiceW)
    (task_executor : Option TaskExecutorW) : AgentServiceBundle :=
  let connections : RemoteConnections := ⟨freshConn⟩
  let conv_service : ConversationServiceW :=
    match conversation_service, response_service with
    | some s, _ => s
    | none, some r => r.conversation_service
    | none, none => ⟨⟨freshMgr⟩⟩
  let resp_service : ResponseServiceW := response_service.getD ⟨conv_service⟩
  let t_service : TaskServiceW := ⟨freshTask⟩
  let p_service : PlanServiceW := plan_service.getD ⟨connections⟩
  let sa_service : SuperAgentServiceW := super_agent_service.getD ⟨freshSuper⟩
  let executor : TaskExecutorW :=
    task_executor.getD ⟨connections, t_service, resp_service, conv_service⟩
  ⟨connections, conv_service, resp_service, t_service, p_service, sa_service, executor⟩

end Wiring

/-- Claim C2: ensure_conversation returns an existing conversation paired
with created = false without calling create, and when get returns None it
creates a conversation via create with the given user_id, title and
conversation_id and returns it paired with created = true. -/
theorem ensure_conversation_correct (st : ManagerState) (uid cid : String)
    (title : Option String) :
    (∀ c, getConversation st cid = some c →
      ConversationService.ensureConversation st uid cid title = ((c, false), st)) ∧
    (getConversation st cid = none →
      ConversationService.ensureConversation st uid cid title =
        ((freshConversation uid title cid, true),
         { st with
            conversations := st.conversations ++ [freshConversation uid title cid],
            createCalls := st.createCalls ++ [(uid, title, cid)] })) := by
  constructor
  · intro c h
    simp [ConversationService.ensureConversation, h]
  · intro h
    simp [ConversationService.ensureConversation, h, createConversation]

/-- Witness for C2: evaluating ensure_conversation on a store that holds
the conversation and on an empty store. -/
theorem ensure_conversation_correct_witness :
    ConversationService.ensureConversation ⟨[⟨"u1", "c1", none, ConversationStatus.created⟩], [], [], []⟩ "u1" "c1" none
      = ((⟨"u1", "c1", none, ConversationStatus.created⟩, false),
         ⟨[⟨"u1", "c1", none, ConversationStatus.created⟩], [], [], []⟩) ∧
    ConversationService.ensureConversation ⟨[], [], [], []⟩ "u2" "c2" none
      = ((freshConversation "u2" none "c2", true),
         ⟨[freshConversation "u2" none "c2"], [], [("u2", none, "c2")], []⟩) := by
  constructor
  · exact (ensure_conversation_correct _ "u1" "c1" none).1 _ (by decide)
  · exact (ensure_conversation_correct _ "u2" "c2" none).2 (by decide)

/-- Claim C7: add_item accepts exactly the item-event fields of the store
contract, forwards every argument unchanged to the manager add_item, and
returns the manager result, an item built from exactly those fields. -/
theorem add_item_forwarding (st : ManagerState) (role : Role) (event : ItemEventTag)
    (cid : String) (tid kid : Option String) (payload : ResponsePayload)
    (iid aname : Option String) :
    ConversationService.addItem st role event cid tid kid payload iid aname
      = managerAddItem st role event cid tid kid payload iid aname ∧
    (ConversationService.addItem st role event cid tid kid payload iid aname).1
      = some ⟨role, event, cid, tid, kid, payload, iid, aname⟩ ∧
    (ConversationService.addItem st role event cid tid kid payload iid aname).2.items
      = st.items ++ [⟨role, event, cid, tid, kid, payload, iid, aname⟩] :=
  ⟨rfl, rfl, rfl⟩

/-- Claim C9: activate, require_user_input and set_status each return
False and leave the store untouched when the conversation does not exist,
and otherwise apply their status change, persist it through
update_conversation, and return True. -/
theorem status_methods_correct (st : ManagerState) (cid : String)
    (s : ConversationStatus) :
    (getConversation st cid = none →
      ConversationService.activate st cid = (false, st) ∧
      ConversationService.requireUserInput st cid = (false, st) ∧
      ConversationService.setStatus st cid s = (false, st)) ∧
    (∀ c, getConversation st cid = some c →
      ConversationService.activate st cid
        = (true, updateConversation st (Conversation.activate c)) ∧
      ConversationService.requireUserInput st cid
        = (true, updateConversation st (Conversation.requireUserInput c)) ∧
      ConversationService.setStatus st cid s
        = (true, updateConversation st (Conversation.setStatus c s)) ∧
      (ConversationService.setStatus st cid s).2.updateCalls
        = st.updateCalls ++ [Conversation.setStatus c s]) := by
  constructor
  · intro h
    refine ⟨?_, ?_, ?_⟩ <;>
      simp [ConversationService.activate, ConversationService.requireUserInput,
        ConversationService.setStatus, h]
  · intro c h
    refine ⟨?_, ?_, ?_, ?_⟩ <;>
      simp [ConversationService.activate, ConversationService.requireUserInput,
        ConversationService.setStatus, h, updateConversation]

/-- Witness for C9: evaluating the status methods on a store without the
conversation and on a store holding it. -/
theorem status_methods_correct_witness :
    ConversationService.activate ⟨[], [], [], []⟩ "c9" = (false, ⟨[], [], [], []⟩) ∧
    ConversationService.setStatus ⟨[⟨"u9", "c9", none, ConversationStatus.created⟩], [], [], []⟩ "c9"
        ConversationStatus.archived
      = (true, updateConversation ⟨[⟨"u9", "c9", none, ConversationStatus.created⟩], [], [], []⟩
          (Conversation.setStatus ⟨"u9", "c9", none, ConversationStatus.created⟩
            ConversationStatus.archived)) := by
  constructor
  · exact ((status_methods_correct ⟨[], [], [], []⟩ "c9" ConversationStatus.archived).1
      (by decide)).1
  · exact ((status_methods_correct _ "c9" ConversationStatus.archived).2 _ (by decide)).2.2.1

namespace Planner

/-- Claim C1: every PlanningDecision the planner returns with
adequate = false has an empty task list. -/
theorem plan_adequate_false_no_tasks (o : PlannerOracle) (ctx : PlanContext)
    (target : Option String) (enabled : List AgentInfo) (q : String)
    (h : (plan o ctx target enabled q).1.adequate = false) :
    (plan o ctx target enabled q).1.tasks = [] := by
  unfold plan at h ⊢
  split_ifs at h ⊢ <;> simp_all

/-- Witness for C1: the sample oracle refuses an unusable request with an
empty task list. -/
theorem plan_adequate_false_no_tasks_witness :
    (plan sampleOracle ⟨false⟩ none sampleAgents "do something impossible").1.tasks = [] :=
  plan_adequate_false_no_tasks sampleOracle ⟨false⟩ none sampleAgents
    "do something impossible" (by decide)

/-- Claim C3: every accepted request yields exactly one task whose query is
the original query text unchanged, with pattern defaulting to once. -/
theorem plan_single_unmodified_task (o : PlannerOracle) (ctx : PlanContext)
    (target : Option String) (enabled : List AgentInfo) (q : String)
    (h : (plan o ctx target enabled q).1.adequate = true) :
    ∃ t, (plan o ctx target enabled q).1.tasks = [t] ∧ t.query = q ∧
      (ctx.awaitingRecurringConfirmation = false → t.pattern = Pattern.once) := by
  unfold plan at h ⊢
  split_ifs at h ⊢ with h1 h2 h3
  · refine ⟨_, rfl, rfl, fun hf => ?_⟩
    simp [hf] at h2
  · exact ⟨_, rfl, rfl, fun _ => rfl⟩

/-- Witness for C3: the sample oracle accepts a plain query as a single
once task with the query unchanged. -/
theorem plan_single_unmodified_task_witness :
    ∃ t, (plan sampleOracle ⟨false⟩ none sampleAgents
        "Analyze the latest market trends").1.tasks = [t] ∧
      t.query = "Analyze the latest market trends" ∧
      ((⟨false⟩ : PlanContext).awaitingRecurringConfirmation = false →
        t.pattern = Pattern.once) :=
  plan_single_unmodified_task sampleOracle ⟨false⟩ none sampleAgents
    "Analyze the latest market trends" (by decide)

/-- Claim C4: schedule extraction applies only to recurring tasks, interval
language populates interval_minutes, clock-time language populates
daily_time, the two fields are never both non-null, and absence of
schedule language leaves the schedule configuration absent. -/
theorem plan_schedule_extraction (o : PlannerOracle) (ctx : PlanContext)
    (target : Option String) (enabled : List AgentInfo) (q : String) :
    (∀ n, o.intervalMinutesOf q = some n →
      extractSchedule o q = some ⟨some n, none⟩) ∧
    (∀ hm, o.intervalMinutesOf q = none → o.dailyTimeOf q = some hm →
      extractSchedule o q = some ⟨none, some hm⟩) ∧
    (o.intervalMinutesOf q = none → o.dailyTimeOf q = none →
      extractSchedule o q = none) ∧
    (∀ t, t ∈ (plan o ctx target enabled q).1.tasks →
      (t.pattern = Pattern.once → t.schedule_config = none) ∧
      (t.pattern = Pattern.recurring → t.schedule_config = extractSchedule o q) ∧
      (∀ cfg, t.schedule_config = some cfg →
        cfg.interval_minutes = none ∨ cfg.daily_time = none)) := by
  refine ⟨?_, ?_, ?_, ?_⟩
  · intro n hn
    simp [extractSchedule, hn]
  · intro hm h1 h2
    simp [extractSchedule, h1, h2]
  · intro h1 h2
    simp [extractSchedule, h1, h2]
  · intro t ht
    have hexcl : ∀ cfg, extractSchedule o q = some cfg →
        cfg.interval_minutes = none ∨ cfg.daily_time = none := by
      intro cfg hcfg
      unfold extractSchedule at hcfg
      rcases hI : o.intervalMinutesOf q with _ | n <;> rw [hI] at hcfg
      · rcases hD : o.dailyTimeOf q with _ | hm <;> rw [hD] at hcfg
        · simp at hcfg
        · cases hcfg
          left
          rfl
      · cases hcfg
        right
        rfl
    unfold plan at ht
    split_ifs at ht
    · simp at ht
    · simp at ht
      subst ht
      refine ⟨fun hp => by simp at hp, fun _ => rfl, hexcl⟩
    · simp at ht
    · simp at ht
      subst ht
      refine ⟨fun _ => rfl, fun hp => by simp at hp, ?_⟩
      intro cfg hcfg
      simp at hcfg

/-- Witness for C4: with the sample oracle, the hourly query yields an
interval-only schedule, and the confirmed recurring task carries it. -/
theorem plan_schedule_extraction_witness :
    extractSchedule sampleOracle "Check Tesla stock price every hour"
      = some ⟨some 60, none⟩ ∧
    ((⟨"Check Tesla stock price every hour", "ResearchAgent", Pattern.recurring,
        extractSchedule sampleOracle "Check Tesla stock price every hour"⟩ : PlannedTask).schedule_config
      = extractSchedule sampleOracle "Check Tesla stock price every hour") := by
  constructor
  · exact (plan_schedule_extraction sampleOracle ⟨true⟩ none sampleAgents
      "Check Tesla stock price every hour").1 60 (by decide)
  · exact ((plan_schedule_extraction sampleOracle ⟨true⟩ none sampleAgents
      "Check Tesla stock price every hour").2.2.2 _ (by decide)).2.1 (by decide)

/-- Claim C5: an unconfirmed recurring intent yields adequate = false with
the clarifying question as reason and no tasks, marking the context as
awaiting confirmation; an affirmative follow-up while awaiting yields
exactly one recurring task; and a recurring task is only ever created
after such a confirmation turn. -/
theorem plan_recurring_confirmation_protocol (o : PlannerOracle) (ctx : PlanContext)
    (target : Option String) (enabled : List AgentInfo) (q : String)
    (hu : o.isUnusable q = false) :
    (o.suggestsRecurring q = true → ctx.awaitingRecurringConfirmation = false →
      plan o ctx target enabled q = (⟨[], false, o.confirmationQuestion q⟩, ⟨true⟩)) ∧
    (ctx.awaitingRecurringConfirmation = true → o.isAffirmativeConfirmation q = true →
      (plan o ctx target enabled q).1.tasks
        = [⟨q, selectAgent o target enabled q, Pattern.recurring, extractSchedule o q⟩] ∧
      (plan o ctx target enabled q).1.adequate = true) ∧
    (∀ t, t ∈ (plan o ctx target enabled q).1.tasks → t.pattern = Pattern.recurring →
      ctx.awaitingRecurringConfirmation = true ∧ o.isAffirmativeConfirmation q = true) := by
  refine ⟨?_, ?_, ?_⟩
  · intro hs ha
    simp [plan, hu, hs, ha]
  · intro ha hy
    simp [plan, hu, ha, hy]
  · intro t ht hrec
    unfold plan at ht
    split_ifs at ht with h1 h2 h3
    · simp at ht
    · exact Bool.and_eq_true _ _ |>.mp h2
    · simp at ht
    · simp at ht
      subst ht
      simp at hrec

/-- Witness for C5: the sample oracle asks for confirmation on a
monitoring query and then accepts the affirmative follow-up as a single
recurring task. -/
theorem plan_recurring_confirmation_protocol_witness :
    plan sampleOracle ⟨false⟩ none sampleAgents "Monitor Apple quarterly earnings"
      = (⟨[], false, "Do you want regular updates on this, or a one-time analysis?"⟩, ⟨true⟩) ∧
    (plan sampleOracle ⟨true⟩ none sampleAgents "Yes, set up regular updates").1.tasks
      = [⟨"Yes, set up regular updates", "ResearchAgent", Pattern.recurring, none⟩] := by
  constructor
  · exact (plan_recurring_confirmation_protocol sampleOracle ⟨false⟩ none sampleAgents
      "Monitor Apple quarterly earnings" (by decide)).1 (by decide) rfl
  · exact ((plan_recurring_confirmation_protocol sampleOracle ⟨true⟩ none sampleAgents
      "Yes, set up regular updates" (by decide)).2.1 rfl (by decide)).1

/-- Claim C6: with no target agent and no confident skill match, an
accepted non-confirmation request yields a single task targeting the
ResearchAgent fallback with pattern once. -/
theorem plan_fallback_default_agent (o : PlannerOracle) (ctx : PlanContext)
    (enabled : List AgentInfo) (q : String)
    (hm : o.skillMatch enabled q = none)
    (hw : ctx.awaitingRecurringConfirmation = false)
    (h : (plan o ctx none enabled q).1.adequate = true) :
    (plan o ctx none enabled q).1.tasks = [⟨q, "ResearchAgent", Pattern.once, none⟩] := by
  unfold plan at h ⊢
  split_ifs at h ⊢ with h1 h2 h3
  · simp [hw] at h2
  · simp [selectAgent, hm]

/-- Witness for C6: the sample oracle, which never finds a skill match,
routes an untargeted query to ResearchAgent as a once task. -/
theorem plan_fallback_default_agent_witness :
    (plan sampleOracle ⟨false⟩ none sampleAgents "Summarize this filing").1.tasks
      = [⟨"Summarize this filing", "ResearchAgent", Pattern.once, none⟩] :=
  plan_fallback_default_agent sampleOracle ⟨false⟩ sampleAgents "Summarize this filing"
    (by decide) rfl (by decide)

end Planner

namespace Exec

/-- Claim C8: in every reachable executor state, at most one dispatch per
task id is in flight, so a new firing of a recurring task never overlaps
an in-flight previous firing. -/
theorem dispatch_serialized_per_task (s : ExecutorState) (h : ExecReachable s) :
    ∀ tid, s.inflight.count tid ≤ 1 := by
  have hd : s.inflight.Nodup := by
    induction h with
    | init => exact List.nodup_nil
    | step hr hstep ih =>
      cases hstep with
      | fire tid => exact ih
      | start tid hp hi => exact List.nodup_cons.mpr ⟨hi, ih⟩
      | finish tid hi => exact ih.erase tid
  exact List.nodup_iff_count_le_one.mp hd

/-- Witness for C8: a state reached by requesting and starting one
dispatch has at most one in-flight dispatch for that task id. -/
theorem dispatch_serialized_per_task_witness :
    (ExecutorState.mk (List.erase ["t1"] "t1") ["t1"]).inflight.count "t1" ≤ 1 :=
  dispatch_serialized_per_task _
    (ExecReachable.step
      (ExecReachable.step ExecReachable.init (ExecStep.fire ⟨[], []⟩ "t1"))
      (ExecStep.start ⟨["t1"], []⟩ "t1" (by simp) (by simp)))
    "t1"

end Exec

namespace Wiring

/-- Claim C10 fails on the code: composing with a caller-supplied task
executor bound to a different ConversationManager yields a bundle whose
task executor does not use the shared conversation manager, contrary to
the class docstring. Evaluated at the failing input. -/
theorem compose_executor_override_escapes_shared_manager :
    (compose 1 1 1 1 none none none none
        (some ⟨⟨0⟩, ⟨0⟩, ⟨⟨⟨0⟩⟩⟩, ⟨⟨0⟩⟩⟩)).task_executor.conversation_service.manager
      ≠ (compose 1 1 1 1 none none none none
        (some ⟨⟨0⟩, ⟨0⟩, ⟨⟨⟨0⟩⟩⟩, ⟨⟨0⟩⟩⟩)).conversation_manager := by
  decide

end Wiring

end ValueCell
